import Mathlib

/-!
Verification development for the Granted context-orchestration pipeline.

The vector store is embedded shallowly: a table is a list of rows, the
pgvector cosine-distance operator is an abstract parameter
`dist : Vec → Vec → ℚ`, and the SQL helper functions
(`match_document_chunks`, `find_similar_live_docs`,
`find_similar_chat_messages` from the schema files) become Lean functions
that filter, sort and truncate lists of rows exactly as the SQL does.
-/

/-- Embedding vectors; components as rationals. -/
abbrev Vec := List ℚ

/-- Fixed embedding dimensionality: every `embedding` column in the schema
is declared `vector(1536)` (OpenAI ada-002). -/
def embeddingDim : Nat := 1536

/-- Row of the `doc_chunks` table (docparser/schema.sql). -/
structure DocChunkRow where
  id : String
  document_id : String
  chunk_idx : Nat
  text : String
  embedding : Vec
  metadata : String
  created_at : Nat
deriving DecidableEq, Repr

/-- Row of the `documents` table (columns used by the search function). -/
structure DocumentRow where
  id : String
  workspace_id : String
  filename : String
deriving DecidableEq, Repr

/-- Output row of `match_document_chunks` (its RETURNS TABLE clause). -/
structure MatchResult where
  id : String
  document_id : String
  chunk_idx : Nat
  text : String
  metadata : String
  similarity : ℚ
  filename : String
deriving DecidableEq, Repr

/-- The FROM/JOIN/WHERE part of `match_document_chunks`: join `doc_chunks`
with `documents` on `dc.document_id = d.id`, keep rows whose document is in
the given workspace and whose similarity `1 - (dc.embedding <=> q)` is
strictly above the threshold. -/
def chunkMatches (dist : Vec → Vec → ℚ) (query_embedding : Vec)
    (workspace_id : String) (match_threshold : ℚ)
    (doc_chunks : List DocChunkRow) (documents : List DocumentRow) :
    List (DocChunkRow × DocumentRow) :=
  doc_chunks.flatMap fun dc =>
    documents.filterMap fun d =>
      if dc.document_id = d.id ∧ d.workspace_id = workspace_id ∧
          match_threshold < 1 - dist dc.embedding query_embedding
      then some (dc, d) else none

/-- The SELECT clause of `match_document_chunks`: project a joined row to
the returned columns, computing `similarity = 1 - (dc.embedding <=> q)`. -/
def matchRow (dist : Vec → Vec → ℚ) (query_embedding : Vec)
    (p : DocChunkRow × DocumentRow) : MatchResult :=
  { id := p.1.id
    document_id := p.1.document_id
    chunk_idx := p.1.chunk_idx
    text := p.1.text
    metadata := p.1.metadata
    similarity := 1 - dist p.1.embedding query_embedding
    filename := p.2.filename }

/-- `ORDER BY dc.embedding <=> query_embedding` as a relation on joined
rows: ascending cosine distance.  SQL guarantees nothing about the order of
ties, so the embedding uses a stable sort: ties stay in table-scan order. -/
def distLE (dist : Vec → Vec → ℚ) (query_embedding : Vec)
    (p q : DocChunkRow × DocumentRow) : Prop :=
  dist p.1.embedding query_embedding ≤ dist q.1.embedding query_embedding

instance (dist : Vec → Vec → ℚ) (qe : Vec) :
    DecidableRel (distLE dist qe) := fun p q =>
  inferInstanceAs (Decidable (dist p.1.embedding qe ≤ dist q.1.embedding qe))

/-- Shallow embedding of the SQL function `match_document_chunks`
(docparser/schema.sql): filter by workspace and similarity threshold,
order by ascending cosine distance, `LIMIT match_count`, project. -/
def match_document_chunks (dist : Vec → Vec → ℚ) (query_embedding : Vec)
    (workspace_id : String) (match_threshold : ℚ) (match_count : Nat)
    (doc_chunks : List DocChunkRow) (documents : List DocumentRow) :
    List MatchResult :=
  ((List.insertionSort (distLE dist query_embedding)
      (chunkMatches dist query_embedding workspace_id match_threshold
        doc_chunks documents)).take match_count).map
    (matchRow dist query_embedding)

/-- Row of the `live_docs` table (backend database schema). -/
structure LiveDocRow where
  id : String
  workspace_id : String
  filename : String
  chunk_idx : Nat
  text : String
  embedding : Vec
  created_at : Nat
deriving DecidableEq, Repr

/-- Output row of `find_similar_live_docs`. -/
structure LiveDocMatch where
  id : String
  filename : String
  chunk_idx : Nat
  text : String
  similarity : ℚ
deriving DecidableEq, Repr

/-- SELECT projection of `find_similar_live_docs`. -/
def liveDocRow (dist : Vec → Vec → ℚ) (query_embedding : Vec)
    (ld : LiveDocRow) : LiveDocMatch :=
  { id := ld.id
    filename := ld.filename
    chunk_idx := ld.chunk_idx
    text := ld.text
    similarity := 1 - dist ld.embedding query_embedding }

/-- `ORDER BY ld.embedding <=> query_embedding` on `live_docs` rows. -/
def liveDistLE (dist : Vec → Vec → ℚ) (query_embedding : Vec)
    (p q : LiveDocRow) : Prop :=
  dist p.embedding query_embedding ≤ dist q.embedding query_embedding

instance (dist : Vec → Vec → ℚ) (qe : Vec) :
    DecidableRel (liveDistLE dist qe) := fun p q =>
  inferInstanceAs (Decidable (dist p.embedding qe ≤ dist q.embedding qe))

/-- Shallow embedding of the SQL function `find_similar_live_docs`
(backend schema in start_chatbot.sh): filter `live_docs` to the target
workspace, order by ascending cosine distance, `LIMIT match_count`.  Note:
no similarity threshold in this function. -/
def find_similar_live_docs (dist : Vec → Vec → ℚ) (query_embedding : Vec)
    (target_workspace_id : String) (match_count : Nat)
    (live_docs : List LiveDocRow) : List LiveDocMatch :=
  ((List.insertionSort (liveDistLE dist query_embedding)
      (live_docs.filter fun ld =>
        ld.workspace_id = target_workspace_id)).take match_count).map
    (liveDocRow dist query_embedding)

/-- Row of the `chat_messages` table. -/
structure ChatMessageRow where
  id : Nat
  chat_id : String
  role : String
  content : String
  embedding : Vec
  created_at : Nat
deriving DecidableEq, Repr

/-- Output row of `find_similar_chat_messages`. -/
structure ChatMessageMatch where
  id : Nat
  role : String
  content : String
  created_at : Nat
  similarity : ℚ
deriving DecidableEq, Repr

/-- SELECT projection of `find_similar_chat_messages`. -/
def chatMessageRow (dist : Vec → Vec → ℚ) (query_embedding : Vec)
    (cm : ChatMessageRow) : ChatMessageMatch :=
  { id := cm.id
    role := cm.role
    content := cm.content
    created_at := cm.created_at
    similarity := 1 - dist cm.embedding query_embedding }

/-- `ORDER BY cm.embedding <=> query_embedding` on `chat_messages` rows. -/
def msgDistLE (dist : Vec → Vec → ℚ) (query_embedding : Vec)
    (p q : ChatMessageRow) : Prop :=
  dist p.embedding query_embedding ≤ dist q.embedding query_embedding

instance (dist : Vec → Vec → ℚ) (qe : Vec) :
    DecidableRel (msgDistLE dist qe) := fun p q =>
  inferInstanceAs (Decidable (dist p.embedding qe ≤ dist q.embedding qe))

/-- Shallow embedding of the SQL function `find_similar_chat_messages`
(backend schema in start_chatbot.sh): filter `chat_messages` to the target
chat, order by ascending cosine distance, `LIMIT match_count`. -/
def find_similar_chat_messages (dist : Vec → Vec → ℚ) (query_embedding : Vec)
    (target_chat_id : String) (match_count : Nat)
    (chat_messages : List ChatMessageRow) : List ChatMessageMatch :=
  ((List.insertionSort (msgDistLE dist query_embedding)
      (chat_messages.filter fun cm =>
        cm.chat_id = target_chat_id)).take match_count).map
    (chatMessageRow dist query_embedding)

/-!
Prompt assembly and the chat memory manager live in the Python backend
(`backend/prompt_builder.py`, `backend/retrievers/chat_retriever.py`),
which is not part of the source tree here; they are modelled from the
specification, as marked on each definition.
-/

/-- A retrieved context fragment: text plus its similarity score. -/
structure Frag where
  text : String
  similarity : ℚ
deriving DecidableEq, Repr

/-- Concatenation of a list of strings (prompt pieces in order). -/
def concatAll : List String → String
  | [] => ""
  | s :: rest => s ++ concatAll rest

/-- Modelled from the spec: the greedy phase of the Prompt Assembler
(§4.8, backend/prompt_builder.py is missing from the sources).  Walk the
candidate fragments in priority order and add each one whose text still
fits in the remaining budget, skipping fragments that do not fit
("prefer dropping whole low-ranked fragments"). -/
def greedyAdd : Nat → List Frag → List String
  | _, [] => []
  | remaining, f :: fs =>
    if f.text.length ≤ remaining then
      f.text :: greedyAdd (remaining - f.text.length) fs
    else
      greedyAdd remaining fs

/-- Modelled from the spec: the Prompt Assembler (§4.8,
backend/prompt_builder.py is missing from the sources).  The rules block,
the recent window and the user query are allocated unconditionally; the
candidate fragments are then added greedily into whatever budget remains. -/
def assemblePrompt (budget : Nat) (rules recent query : String)
    (cands : List Frag) : String :=
  let remaining := budget - (rules.length + recent.length + query.length)
  rules ++ recent ++ concatAll (greedyAdd remaining cands) ++ query

/-- Descending-similarity order used to rank candidate fragments. -/
def simGE (p q : Frag) : Prop := q.similarity ≤ p.similarity

instance : DecidableRel simGE := fun p q =>
  inferInstanceAs (Decidable (q.similarity ≤ p.similarity))

/-- Sort fragments by descending similarity (stable). -/
def sortBySim (l : List Frag) : List Frag := List.insertionSort simGE l

/-- Result of `build_context`: the assembled prompt and the list of
context sources that actually contributed. -/
structure CtxResult where
  prompt : String
  sources_used : List String
deriving DecidableEq, Repr

/-- The fragments a context source contributes: a failed source
contributes the empty result set. -/
def fragmentsOf : Except Unit (List Frag) → List Frag
  | .ok l => l
  | .error _ => []

/-- A source is reported in `sources_used` when it succeeded and
contributed at least one fragment. -/
def contributed (tag : String) : Except Unit (List Frag) → List String
  | .ok (_ :: _) => [tag]
  | _ => []

/-- Modelled from the spec: the caller-facing entry point `build_context`
(§6/§7, the backend orchestration code is missing from the sources).  The
Rules block and the Recent window are essential: if either failed the call
fails.  The three similarity-based sources (summarized memory, live
document, PDF sources) degrade: a failed one contributes an empty result
set and the others still populate the prompt, in the fixed priority order
of §4.8 (source type first, then descending similarity). -/
def build_context (rules : Except Unit String)
    (recent : Except Unit (List String))
    (summaries liveDocs pdfs : Except Unit (List Frag))
    (budget : Nat) (query : String) : Except Unit CtxResult :=
  match rules, recent with
  | .ok ru, .ok re =>
    .ok { prompt := assemblePrompt budget ru (concatAll re) query
            (sortBySim (fragmentsOf summaries) ++
             sortBySim (fragmentsOf liveDocs) ++
             sortBySim (fragmentsOf pdfs))
          sources_used := contributed "chat_summary" summaries ++
            contributed "live_doc" liveDocs ++
            contributed "pdf_source" pdfs }
  | _, _ => .error ()

/-- The `sources_used` of a `build_context` outcome (empty on failure). -/
def sourcesUsedOf : Except Unit CtxResult → List String
  | .ok o => o.sources_used
  | .error _ => []

/-- Per-chat state of the Chat Memory Manager: number of stored messages
and number of summary writes performed so far. -/
structure ChatState where
  count : Nat
  summaryWrites : Nat
deriving DecidableEq, Repr

/-- Modelled from the spec: the Chat Memory Manager's transition (§4.6,
backend/retrievers/chat_retriever.py is missing from the sources).
Storing a message increments the per-chat message count; when the new
count is a multiple of the threshold, exactly one summary write is
performed.  Per §5 writes within one chat are serialized, so a burst of
messages is a sequence of these transitions. -/
def storeMessage (threshold : Nat) (st : ChatState) : ChatState :=
  let c := st.count + 1
  if c % threshold = 0 then
    { count := c, summaryWrites := st.summaryWrites + 1 }
  else
    { count := c, summaryWrites := st.summaryWrites }

/-- State of a chat after its first `n` messages have been stored. -/
def storeN (threshold : Nat) : Nat → ChatState
  | 0 => { count := 0, summaryWrites := 0 }
  | n + 1 => storeMessage threshold (storeN threshold n)

/-- Row of the `chat_summaries` table; `chat_id` is the PRIMARY KEY. -/
structure ChatSummaryRow where
  chat_id : String
  summary : String
  embedding : Vec
  updated_at : Nat
deriving DecidableEq, Repr

/-- Upsert into `chat_summaries` under its `chat_id uuid PRIMARY KEY`
constraint: when a row with the same `chat_id` exists it is overwritten in
place, otherwise the new row is appended. -/
def upsert_chat_summary (tbl : List ChatSummaryRow) (r : ChatSummaryRow) :
    List ChatSummaryRow :=
  if tbl.any fun x => x.chat_id == r.chat_id then
    tbl.map fun x => if x.chat_id == r.chat_id then r else x
  else
    tbl ++ [r]

/-- Number of rows of `chat_summaries` with the given `chat_id`. -/
def summaryCount (tbl : List ChatSummaryRow) (c : String) : Nat :=
  tbl.countP fun x => x.chat_id == c

/-- At most one `chat_summaries` row per chat. -/
def summariesUnique (tbl : List ChatSummaryRow) : Prop :=
  ∀ c, summaryCount tbl c ≤ 1

instance (tbl : List ChatSummaryRow) : Decidable (summariesUnique tbl) := by
  unfold summariesUnique summaryCount
  exact decidable_of_iff
    (∀ x ∈ tbl, tbl.countP (fun y => y.chat_id == x.chat_id) ≤ 1)
    (by
      constructor
      · intro h c
        by_cases hc : ∃ x ∈ tbl, x.chat_id = c
        · obtain ⟨x, hx, hxc⟩ := hc
          simpa [hxc] using h x hx
        · have : tbl.countP (fun y => y.chat_id == c) = 0 := by
            rw [List.countP_eq_zero]
            intro y hy
            simp only [beq_iff_eq]
            exact fun hyc => hc ⟨y, hy, hyc⟩
          omega
      · intro h x _
        exact h x.chat_id)

/-- Insertion into `doc_chunks`: the column type `vector(1536)` rejects an
embedding of any other dimensionality. -/
def insert_doc_chunk (tbl : List DocChunkRow) (r : DocChunkRow) :
    Except Unit (List DocChunkRow) :=
  if r.embedding.length = embeddingDim then .ok (tbl ++ [r]) else .error ()

/-- Insertion into `live_docs` under its `vector(1536)` column type. -/
def insert_live_doc (tbl : List LiveDocRow) (r : LiveDocRow) :
    Except Unit (List LiveDocRow) :=
  if r.embedding.length = embeddingDim then .ok (tbl ++ [r]) else .error ()

/-- Insertion into `chat_messages` under its `vector(1536)` column type. -/
def insert_chat_message (tbl : List ChatMessageRow) (r : ChatMessageRow) :
    Except Unit (List ChatMessageRow) :=
  if r.embedding.length = embeddingDim then .ok (tbl ++ [r]) else .error ()

/-- Insertion into `chat_summaries` under its `vector(1536)` column type. -/
def insert_chat_summary (tbl : List ChatSummaryRow) (r : ChatSummaryRow) :
    Except Unit (List ChatSummaryRow) :=
  if r.embedding.length = embeddingDim then .ok (tbl ++ [r]) else .error ()

/-!
Frontend chat API (src/utils/chatApi.ts, the `sendChatMessage` function)
and the PDF upload hook (src/hooks/usePDFHandler.ts), embedded shallowly:
the outcomes of the external `fetch` calls are parameters (`Except Unit _`,
where `.error` stands for a thrown network or JSON-parse error), JavaScript
string truthiness is modelled by comparison with the empty string, and
optional request fields are `Option`s.
-/

/-- The request accepted by `sendChatMessage`. -/
structure ChatRequest where
  message : String
  workspace_id : Option String
  chat_id : Option String
  context_files : Option (List String)
  use_rag : Option Bool
deriving DecidableEq, Repr

/-- The response produced by `sendChatMessage`. -/
structure ChatResponse where
  success : Bool
  response : String
  error : Option String
deriving DecidableEq, Repr

/-- JavaScript `a || d` for an optional string: the default is used when
the field is undefined or the empty string (both falsy). -/
def jsOrString : Option String → String → String
  | none, d => d
  | some s, d => if s = "" then d else s

/-- The fixed workspace UUID the frontend falls back to. -/
def defaultWorkspaceId : String := "550e8400-e29b-41d4-a716-446655440000"

/-- Body of the `/get_rag_context` POST issued by `sendChatMessage`. -/
structure RagBody where
  document_ids : List String
  workspace_id : String
  query : String
  limit : Nat
deriving DecidableEq, Repr

/-- The `/get_rag_context` request body built by `sendChatMessage`. -/
def ragRequestBody (req : ChatRequest) : RagBody :=
  { document_ids := req.context_files.getD []
    workspace_id := jsOrString req.workspace_id defaultWorkspaceId
    query := req.message
    limit := 20 }

/-- Whether `sendChatMessage` issues the RAG call:
`request.use_rag && request.context_files && request.context_files.length > 0`. -/
def ragEnabled (req : ChatRequest) : Bool :=
  req.use_rag.getD false &&
    (match req.context_files with
     | some l => decide (0 < l.length)
     | none => false)

/-- Parsed JSON of a `/get_rag_context` response: the HTTP `ok` flag and
the `success`/`context` fields (the empty string models an absent or falsy
`context`). -/
structure RagResp where
  ok : Bool
  success : Bool
  context : String
deriving DecidableEq, Repr

/-- The `ragContext` variable of `sendChatMessage` given the outcome of the
RAG fetch: empty unless the call was made, returned HTTP-ok, reported
`success`, and carried a truthy `context`; a thrown error is caught and
leaves it empty. -/
def ragContextOf (req : ChatRequest) : Except Unit RagResp → String
  | .ok resp =>
    if ragEnabled req then
      if resp.ok && resp.success && resp.context != "" then resp.context
      else ""
    else ""
  | .error _ => ""

/-- The `finalMessage` variable of `sendChatMessage`: the user message,
prefixed by the RAG context when one was obtained. -/
def finalMessage (req : ChatRequest) (ragContext : String) : String :=
  if ragContext != "" then
    "Context from documents:\n\n" ++ ragContext ++ "\n\nUser question: " ++
      req.message
  else
    req.message

/-- Body of the `/chat/query` POST issued by `sendChatMessage`; `now` is
`Date.now()`, used for the fallback chat id. -/
structure ChatBody where
  workspace_id : String
  chat_id : String
  message : String
  context_files : List String
deriving DecidableEq, Repr

/-- The `/chat/query` request body built by `sendChatMessage`. -/
def chatRequestBody (req : ChatRequest) (ragContext : String) (now : Nat) :
    ChatBody :=
  { workspace_id := jsOrString req.workspace_id defaultWorkspaceId
    chat_id := jsOrString req.chat_id ("chat-" ++ toString now)
    message := finalMessage req ragContext
    context_files := req.context_files.getD [] }

/-- Parsed JSON of a `/chat/query` response: the HTTP `ok` flag and the
`answer`/`response`/`message` fields (empty string models absent). -/
structure ChatResp where
  ok : Bool
  answer : String
  response : String
  message : String
deriving DecidableEq, Repr

/-- `data.answer || data.response || data.message || 'No response
received'`: the first truthy field. -/
def responseText (c : ChatResp) : String :=
  if c.answer != "" then c.answer
  else if c.response != "" then c.response
  else if c.message != "" then c.message
  else "No response received"

/-- The fallback response returned from the catch-all handler of
`sendChatMessage`, embedding the user's message verbatim. -/
def fallbackResponse (msg : String) : String :=
  "I apologize, but I'm having trouble connecting to the backend right now. Your message was: \"" ++
    msg ++ "\". Please ensure the backend server is running."

/-- Observable behavior of one `sendChatMessage` call: the `/chat/query`
body it sent and the `ChatResponse` it resolved with. -/
structure SendOutcome where
  body : ChatBody
  result : ChatResponse
deriving DecidableEq, Repr

/-- Shallow embedding of `sendChatMessage` (src/utils/chatApi.ts): the RAG
fetch outcome and the chat fetch outcome are parameters, `now` is
`Date.now()`.  A RAG failure is caught by the inner handler and only
leaves the context empty; the chat call is still issued.  A chat fetch
that throws, or returns a non-ok HTTP status (which the code turns into a
throw), lands in the outer catch, which resolves with `success := false`
and the fallback response — the function always resolves. -/
def sendChatMessage (req : ChatRequest) (ragFetch : Except Unit RagResp)
    (chatFetch : Except Unit ChatResp) (now : Nat) : SendOutcome :=
  let rc := ragContextOf req ragFetch
  { body := chatRequestBody req rc now
    result :=
      match chatFetch with
      | .ok resp =>
        if resp.ok then
          { success := true, response := responseText resp, error := none }
        else
          { success := false, response := fallbackResponse req.message
            error := some "HTTP error" }
      | .error _ =>
        { success := false, response := fallbackResponse req.message
          error := some "Unknown error" } }

/-- Options of the `usePDFHandler` hook. -/
structure PDFHandlerOptions where
  workspaceId : Option String
  userId : Option String
deriving DecidableEq, Repr

/-- The destructuring default of `usePDFHandler`:
`const { workspaceId = '550e8400-…' } = options` — the default applies
exactly when the option is undefined. -/
def handlerWorkspaceId (o : PDFHandlerOptions) : String :=
  o.workspaceId.getD defaultWorkspaceId

/-- The `documents`-table record inserted by `uploadPDF`
(src/hooks/usePDFHandler.ts). -/
structure DocumentsInsert where
  id : String
  workspace_id : String
  filename : String
  file_type : String
  file_size : Nat
  status : String
deriving DecidableEq, Repr

/-- The backend document record built by `uploadPDF`: id `doc_<timestamp>`,
the hook's workspace id, and status `pending`. -/
def uploadDocumentRecord (o : PDFHandlerOptions) (timestamp : Nat)
    (name fileExt : String) (size : Nat) : DocumentsInsert :=
  { id := "doc_" ++ toString timestamp
    workspace_id := handlerWorkspaceId o
    filename := name
    file_type := fileExt
    file_size := size
    status := "pending" }

/-!
Theorems.  The generic lemma below factors the shared
filter–sort–limit–project pipeline of the three SQL search functions.
-/

/-- Any element of a sorted, truncated, projected list is the projection
of an element of the original list. -/
theorem mem_sort_take_map {α β : Type} (rel : α → α → Prop)
    [DecidableRel rel] {k : Nat} {f : α → β} {l : List α} {y : β}
    (h : y ∈ ((List.insertionSort rel l).take k).map f) :
    ∃ x ∈ l, y = f x := by
  obtain ⟨x, hx, rfl⟩ := List.mem_map.mp h
  exact ⟨x, (List.mem_insertionSort rel).mp (List.mem_of_mem_take hx),
    rfl⟩

/-- Membership in the joined-and-filtered rows of
`match_document_chunks` unpacks to the join and filter conditions. -/
theorem mem_chunkMatches {dist : Vec → Vec → ℚ} {qe : Vec} {ws : String}
    {θ : ℚ} {chunks : List DocChunkRow} {docs : List DocumentRow}
    {p : DocChunkRow × DocumentRow}
    (h : p ∈ chunkMatches dist qe ws θ chunks docs) :
    p.1 ∈ chunks ∧ p.2 ∈ docs ∧ p.1.document_id = p.2.id ∧
      p.2.workspace_id = ws ∧ θ < 1 - dist p.1.embedding qe := by
  unfold chunkMatches at h
  obtain ⟨dc, hdc, hp⟩ := List.mem_flatMap.mp h
  obtain ⟨d, hd, hpd⟩ := List.mem_filterMap.mp hp
  by_cases hc : dc.document_id = d.id ∧ d.workspace_id = ws ∧
      θ < 1 - dist dc.embedding qe
  · rw [if_pos hc] at hpd
    cases hpd
    exact ⟨hdc, hd, hc.1, hc.2.1, hc.2.2⟩
  · rw [if_neg hc] at hpd
    cases hpd

/-- Claim C1: tenant/workspace isolation.  Every row returned by the
document-chunk search belongs to a document of the queried workspace,
every row returned by the live-document search comes from a `live_docs`
row of the queried workspace, and every row returned by the chat-message
search comes from a message of the queried chat — for every distance
function, so even when another tenant has more similar content. -/
theorem tenant_isolation_retrievals (dist : Vec → Vec → ℚ) (qe : Vec)
    (ws chat : String) (θ : ℚ) (k : Nat) (chunks : List DocChunkRow)
    (docs : List DocumentRow) (lds : List LiveDocRow)
    (msgs : List ChatMessageRow) :
    (∀ r ∈ match_document_chunks dist qe ws θ k chunks docs,
      ∃ d ∈ docs, d.id = r.document_id ∧ d.workspace_id = ws) ∧
    (∀ r ∈ find_similar_live_docs dist qe ws k lds,
      ∃ ld ∈ lds, ld.workspace_id = ws ∧ r = liveDocRow dist qe ld) ∧
    (∀ r ∈ find_similar_chat_messages dist qe chat k msgs,
      ∃ cm ∈ msgs, cm.chat_id = chat ∧ r = chatMessageRow dist qe cm) := by
  refine ⟨fun r hr => ?_, fun r hr => ?_, fun r hr => ?_⟩
  · obtain ⟨p, hp, rfl⟩ := mem_sort_take_map _ hr
    obtain ⟨_, hd, hid, hws, _⟩ := mem_chunkMatches hp
    exact ⟨p.2, hd, by simp [matchRow, hid], hws⟩
  · obtain ⟨ld, hld, rfl⟩ := mem_sort_take_map _ hr
    have := List.mem_filter.mp hld
    exact ⟨ld, this.1, by simpa using this.2, rfl⟩
  · obtain ⟨cm, hcm, rfl⟩ := mem_sort_take_map _ hr
    have := List.mem_filter.mp hcm
    exact ⟨cm, this.1, by simpa using this.2, rfl⟩

/-- Constant distance function, used to exercise the theorems on ties. -/
def dist0 : Vec → Vec → ℚ := fun _ _ => 0

/-- Concrete `documents` fixture in workspace `wsA`. -/
def wDocA : DocumentRow := { id := "d1", workspace_id := "wsA", filename := "a.pdf" }

/-- Concrete `documents` fixture in workspace `wsB`. -/
def wDocB : DocumentRow := { id := "d2", workspace_id := "wsB", filename := "b.pdf" }

/-- Concrete `doc_chunks` fixture belonging to `wDocA`. -/
def wChunkA : DocChunkRow :=
  { id := "c1", document_id := "d1", chunk_idx := 0, text := "alpha"
    embedding := [], metadata := "", created_at := 1 }

/-- Concrete `doc_chunks` fixture belonging to `wDocB`. -/
def wChunkB : DocChunkRow :=
  { id := "c2", document_id := "d2", chunk_idx := 0, text := "beta"
    embedding := [], metadata := "", created_at := 2 }

/-- Concrete `live_docs` fixture in workspace `wsA`. -/
def wLive : LiveDocRow :=
  { id := "l1", workspace_id := "wsA", filename := "doc.txt"
    chunk_idx := 0, text := "live", embedding := [], created_at := 3 }

/-- Concrete `chat_messages` fixture in chat `chatA`. -/
def wMsg : ChatMessageRow :=
  { id := 1, chat_id := "chatA", role := "user", content := "hi"
    embedding := [], created_at := 4 }

/-- Witness for C1: the isolation theorem applied to a concrete two-tenant
store, at the concrete rows each search returns. -/
theorem tenant_isolation_retrievals_witness :
    (∃ d ∈ [wDocA, wDocB], d.id = (matchRow dist0 [] (wChunkA, wDocA)).document_id ∧
      d.workspace_id = "wsA") ∧
    (∃ ld ∈ [wLive], ld.workspace_id = "wsA" ∧
      liveDocRow dist0 [] wLive = liveDocRow dist0 [] ld) ∧
    (∃ cm ∈ [wMsg], cm.chat_id = "chatA" ∧
      chatMessageRow dist0 [] wMsg = chatMessageRow dist0 [] cm) := by
  have h := tenant_isolation_retrievals dist0 [] "wsA" "chatA" (1/2) 5
    [wChunkA, wChunkB] [wDocA, wDocB] [wLive] [wMsg]
  exact ⟨h.1 (matchRow dist0 [] (wChunkA, wDocA)) (by with_unfolding_all decide),
    h.2.1 (liveDocRow dist0 [] wLive) (by with_unfolding_all decide),
    h.2.2 (chatMessageRow dist0 [] wMsg) (by with_unfolding_all decide)⟩

/-- Older chunk at distance 0 from the query (created_at 10). -/
def ceOld : DocChunkRow :=
  { id := "old", document_id := "d1", chunk_idx := 0, text := "older"
    embedding := [], metadata := "", created_at := 10 }

/-- Newer chunk, equally distant from the query (created_at 20). -/
def ceNew : DocChunkRow :=
  { id := "new", document_id := "d1", chunk_idx := 1, text := "newer"
    embedding := [], metadata := "", created_at := 20 }

/-- Counterexample to claim C3: `match_document_chunks` has no
`created_at` tie-break.  With two equally distant chunks whose table-scan
order puts the newer one first, the returned order keeps the newer chunk
first, while the claim demands the older one (ascending `created_at`)
first. -/
theorem ranking_tiebreak_counterexample :
    (match_document_chunks dist0 [] "wsA" (1/2) 10 [ceNew, ceOld]
      [wDocA]).map (fun r => r.id) = ["new", "old"] ∧
    dist0 ceNew.embedding [] = dist0 ceOld.embedding [] ∧
    ceOld.created_at < ceNew.created_at := by
  with_unfolding_all decide

/-- Claim C3 (amended): the document-chunk retrieval returns results
ordered by ascending cosine distance — equivalently nonincreasing
similarity — but ties between equally distant chunks are returned in
underlying table order, not ordered by `created_at`. -/
theorem ranking_sorted_by_distance (dist : Vec → Vec → ℚ) (qe : Vec)
    (ws : String) (θ : ℚ) (k : Nat) (chunks : List DocChunkRow)
    (docs : List DocumentRow) :
    List.Pairwise (fun a b : MatchResult => b.similarity ≤ a.similarity)
      (match_document_chunks dist qe ws θ k chunks docs) := by
  unfold match_document_chunks
  rw [List.pairwise_map]
  letI : IsTotal (DocChunkRow × DocumentRow) (distLE dist qe) :=
    ⟨fun p q => le_total _ _⟩
  letI : IsTrans (DocChunkRow × DocumentRow) (distLE dist qe) :=
    ⟨fun _ _ _ => le_trans⟩
  have hs := List.sorted_insertionSort (distLE dist qe)
    (chunkMatches dist qe ws θ chunks docs)
  exact (hs.sublist (List.take_sublist _ _)).imp
    (fun h => by simpa [matchRow] using sub_le_sub_left h 1)

/-- Claim C6: top-K with threshold.  The document-chunk retrieval returns
at most `match_count` rows, every returned row has similarity strictly
above the threshold, and when no stored chunk meets the threshold the
call returns the empty list (not an error). -/
theorem match_chunks_topk (dist : Vec → Vec → ℚ) (qe : Vec) (ws : String)
    (θ : ℚ) (k : Nat) (chunks : List DocChunkRow)
    (docs : List DocumentRow) :
    (match_document_chunks dist qe ws θ k chunks docs).length ≤ k ∧
    (∀ r ∈ match_document_chunks dist qe ws θ k chunks docs,
      θ < r.similarity) ∧
    ((∀ dc ∈ chunks, 1 - dist dc.embedding qe ≤ θ) →
      match_document_chunks dist qe ws θ k chunks docs = []) := by
  refine ⟨?_, fun r hr => ?_, fun hθ => ?_⟩
  · unfold match_document_chunks
    rw [List.length_map]
    exact List.length_take_le _ _
  · obtain ⟨p, hp, rfl⟩ := mem_sort_take_map _ hr
    obtain ⟨_, _, _, _, hsim⟩ := mem_chunkMatches hp
    simpa [matchRow] using hsim
  · have hempty : chunkMatches dist qe ws θ chunks docs = [] := by
      rw [List.eq_nil_iff_forall_not_mem]
      intro p hp
      obtain ⟨hdc, _, _, _, hsim⟩ := mem_chunkMatches hp
      exact absurd hsim (not_lt.mpr (hθ p.1 hdc))
    unfold match_document_chunks
    rw [hempty]
    simp

/-- Witness for C6: the theorem applied to a concrete store — the length
bound and the threshold bound at the returned row, and the empty result
when the threshold is too high. -/
theorem match_chunks_topk_witness :
    (match_document_chunks dist0 [] "wsA" (1/2) 5 [wChunkA, wChunkB]
      [wDocA, wDocB]).length ≤ 5 ∧
    (1/2 : ℚ) < (matchRow dist0 [] (wChunkA, wDocA)).similarity ∧
    match_document_chunks dist0 [] "wsA" 2 5 [wChunkA, wChunkB]
      [wDocA, wDocB] = [] := by
  refine ⟨(match_chunks_topk dist0 [] "wsA" (1/2) 5 [wChunkA, wChunkB]
      [wDocA, wDocB]).1,
    (match_chunks_topk dist0 [] "wsA" (1/2) 5 [wChunkA, wChunkB]
      [wDocA, wDocB]).2.1 (matchRow dist0 [] (wChunkA, wDocA))
      (by with_unfolding_all decide),
    (match_chunks_topk dist0 [] "wsA" 2 5 [wChunkA, wChunkB]
      [wDocA, wDocB]).2.2 (by with_unfolding_all decide)⟩

/-- Length of a concatenation is the sum of the lengths. -/
theorem concatAll_length (l : List String) :
    (concatAll l).length = (l.map String.length).sum := by
  induction l with
  | nil => rfl
  | cons s rest ih => simp [concatAll, String.length_append, ih]

/-- The greedy phase never exceeds the budget it is given. -/
theorem greedyAdd_length (remaining : Nat) (fs : List Frag) :
    (concatAll (greedyAdd remaining fs)).length ≤ remaining := by
  induction fs generalizing remaining with
  | nil => simp [greedyAdd, concatAll]
  | cons f rest ih =>
    unfold greedyAdd
    by_cases h : f.text.length ≤ remaining
    · rw [if_pos h]
      have := ih (remaining - f.text.length)
      rw [concatAll, String.length_append]
      omega
    · rw [if_neg h]
      exact ih remaining

/-- Counterexample to claim C2: the assembled prompt can exceed the
configured maximum.  The rules block, the recent window and the user
query are allocated unconditionally, so a query longer than the whole
budget already overflows it (here: budget 10, query of 20 characters,
no fragments at all). -/
theorem budget_bound_counterexample :
    10 < (assemblePrompt 10 "" "" "aaaaaaaaaaaaaaaaaaaa" []).length := by
  decide

/-- Claim C2 (amended): whenever the unconditionally allocated parts —
the rules block, the recent window and the user query — fit in the
budget, the assembled prompt never exceeds it: the greedily added
fragments can never overflow the remaining budget, for every fragment
set. -/
theorem assemble_budget_bound (budget : Nat) (rules recent query : String)
    (cands : List Frag)
    (h : rules.length + recent.length + query.length ≤ budget) :
    (assemblePrompt budget rules recent query cands).length ≤ budget := by
  unfold assemblePrompt
  have hg := greedyAdd_length
    (budget - (rules.length + recent.length + query.length)) cands
  simp only [String.length_append]
  omega

/-- Witness for C2 (amended): concrete budget 10, fixed parts of total
length 6, one candidate fragment. -/
theorem assemble_budget_bound_witness :
    ("ab".length + "cd".length + "ef".length ≤ 10) ∧
    (assemblePrompt 10 "ab" "cd" "ef" [{ text := "xyz", similarity := 1 }]).length ≤ 10 :=
  ⟨by decide,
   assemble_budget_bound 10 "ab" "cd" "ef" [{ text := "xyz", similarity := 1 }]
     (by decide)⟩

/-- After `n` stored messages the count is `n`. -/
theorem storeN_count (threshold n : Nat) :
    (storeN threshold n).count = n := by
  induction n with
  | zero => rfl
  | succ n ih =>
    unfold storeN storeMessage
    simp only [ih]
    split <;> rfl

/-- Claim C4: summarization trigger.  Storing a message whose new count
is a multiple of the threshold performs exactly one summary write, any
other store performs none, and after any burst of `n` serialized stores
the number of summary writes is exactly `n / threshold` — so a burst
crossing the threshold once has produced exactly one summary update
before the next message is processed. -/
theorem summarization_trigger (threshold : Nat) :
    (∀ st : ChatState, (st.count + 1) % threshold = 0 →
      storeMessage threshold st =
        { count := st.count + 1, summaryWrites := st.summaryWrites + 1 }) ∧
    (∀ st : ChatState, (st.count + 1) % threshold ≠ 0 →
      storeMessage threshold st =
        { count := st.count + 1, summaryWrites := st.summaryWrites }) ∧
    (∀ n : Nat, (storeN threshold n).summaryWrites = n / threshold) := by
  refine ⟨fun st h => ?_, fun st h => ?_, fun n => ?_⟩
  · unfold storeMessage
    rw [if_pos h]
  · unfold storeMessage
    rw [if_neg h]
  · induction n with
    | zero => simp [storeN]
    | succ n ih =>
      unfold storeN storeMessage
      rw [storeN_count]
      by_cases h : (n + 1) % threshold = 0
      · rw [if_pos h]
        simp only [ih]
        rw [Nat.succ_div_of_dvd (Nat.dvd_of_mod_eq_zero h)]
      · rw [if_neg h]
        simp only [ih]
        rw [Nat.succ_div_of_not_dvd (fun hd => h (Nat.mod_eq_zero_of_dvd hd))]

/-- Witness for C4: threshold 10 — the 10th message triggers exactly one
summary write, the 11th none, and a serialized burst of 25 messages has
performed exactly 2 summary writes. -/
theorem summarization_trigger_witness :
    storeMessage 10 { count := 9, summaryWrites := 0 } =
      { count := 10, summaryWrites := 1 } ∧
    storeMessage 10 { count := 10, summaryWrites := 1 } =
      { count := 11, summaryWrites := 1 } ∧
    (storeN 10 25).summaryWrites = 25 / 10 :=
  ⟨(summarization_trigger 10).1 { count := 9, summaryWrites := 0 } (by decide),
   (summarization_trigger 10).2.1 { count := 10, summaryWrites := 1 } (by decide),
   (summarization_trigger 10).2.2 25⟩

/-- The only tag a source can contribute to `sources_used` is its own. -/
theorem mem_contributed {x tag : String} {src : Except Unit (List Frag)}
    (h : x ∈ contributed tag src) : x = tag := by
  unfold contributed at h
  split at h
  · simpa using h
  · simp at h

/-- Claim C5: retriever failure isolation.  Whenever the Rules block and
the Recent window succeed, `build_context` produces an answer for every
outcome of the three similarity sources; a failed source behaves exactly
like a source that returned no fragments, so the others still populate
the prompt; and a failed PDF retriever is omitted from `sources_used`. -/
theorem retriever_failure_isolation (ru : String) (re : List String)
    (s l p : Except Unit (List Frag)) (budget : Nat) (query : String)
    (e : Unit) :
    (build_context (.ok ru) (.ok re) s l p budget query).isOk = true ∧
    build_context (.ok ru) (.ok re) s l (.error e) budget query =
      build_context (.ok ru) (.ok re) s l (.ok []) budget query ∧
    build_context (.ok ru) (.ok re) (.error e) l p budget query =
      build_context (.ok ru) (.ok re) (.ok []) l p budget query ∧
    build_context (.ok ru) (.ok re) s (.error e) p budget query =
      build_context (.ok ru) (.ok re) s (.ok []) p budget query ∧
    "pdf_source" ∉
      sourcesUsedOf (build_context (.ok ru) (.ok re) s l (.error e)
        budget query) := by
  refine ⟨rfl, rfl, rfl, rfl, fun hmem => ?_⟩
  simp only [build_context, sourcesUsedOf] at hmem
  rcases List.mem_append.mp hmem with h | h
  · rcases List.mem_append.mp h with h' | h'
    · exact absurd (mem_contributed h') (by decide)
    · exact absurd (mem_contributed h') (by decide)
  · simp [contributed] at h

/-- Witness for C5: a concrete call with a failed PDF retriever still
returns an answer, equals the empty-contribution call, and omits
`pdf_source` from `sources_used`. -/
theorem retriever_failure_isolation_witness :
    (build_context (.ok "rules") (.ok ["recent"])
      (.ok [{ text := "sum", similarity := 1 }]) (.ok []) (.error ())
      100 "query").isOk = true ∧
    "pdf_source" ∉
      sourcesUsedOf (build_context (.ok "rules") (.ok ["recent"])
        (.ok [{ text := "sum", similarity := 1 }]) (.ok []) (.error ())
        100 "query") :=
  ⟨(retriever_failure_isolation "rules" ["recent"]
      (.ok [{ text := "sum", similarity := 1 }]) (.ok []) (.error ())
      100 "query" ()).1,
   (retriever_failure_isolation "rules" ["recent"]
      (.ok [{ text := "sum", similarity := 1 }]) (.ok []) (.error ())
      100 "query" ()).2.2.2.2⟩

/-- Replacing the row with the matching key leaves every row's key
unchanged. -/
theorem upsert_replace_keeps_keys (r : ChatSummaryRow)
    (x : ChatSummaryRow) :
    (if x.chat_id == r.chat_id then r else x).chat_id = x.chat_id := by
  by_cases h : x.chat_id == r.chat_id
  · rw [if_pos h]
    exact (eq_of_beq h).symm
  · rw [if_neg h]

/-- Upserting preserves "at most one summary row per chat". -/
theorem upsert_preserves_unique (tbl : List ChatSummaryRow)
    (r : ChatSummaryRow) (h : summariesUnique tbl) :
    summariesUnique (upsert_chat_summary tbl r) := by
  intro c
  unfold upsert_chat_summary
  by_cases hex : tbl.any fun x => x.chat_id == r.chat_id
  · rw [if_pos hex]
    unfold summaryCount
    rw [List.countP_map]
    calc tbl.countP ((fun x => x.chat_id == c) ∘
          fun x => if x.chat_id == r.chat_id then r else x)
        = tbl.countP fun x => x.chat_id == c :=
          List.countP_congr fun x _ => by
            have hk := upsert_replace_keeps_keys r x
            simp only [Function.comp]
            rw [hk]
      _ ≤ 1 := h c
  · rw [if_neg hex]
    unfold summaryCount
    rw [List.countP_append]
    by_cases hc : r.chat_id == c
    · have hz : tbl.countP (fun x => x.chat_id == c) = 0 := by
        rw [List.countP_eq_zero]
        intro a ha hac
        refine hex (List.any_eq_true.mpr ⟨a, ha, ?_⟩)
        rw [eq_of_beq hac, eq_of_beq hc]
        exact beq_self_eq_true _
      rw [hz, List.countP_cons, List.countP_nil]
      split <;> omega
    · have h0 : ([r].countP fun x => x.chat_id == c) = 0 := by
        rw [List.countP_cons, List.countP_nil]
        simp [hc]
      rw [h0]
      simpa using h c

/-- Claim C7: single summary row per chat.  Under the `chat_id` primary
key, upserting preserves "at most one row per chat", an upsert that finds
an existing row overwrites it in place without changing the number of
rows, and every table reachable from the empty table by a sequence of
upserts has at most one summary row per chat. -/
theorem single_summary_row (tbl : List ChatSummaryRow)
    (r : ChatSummaryRow) (c : String) (h : summariesUnique tbl) :
    summaryCount (upsert_chat_summary tbl r) c ≤ 1 ∧
    ((tbl.any fun x => x.chat_id == r.chat_id) = true →
      (upsert_chat_summary tbl r).length = tbl.length) ∧
    (∀ ops : List ChatSummaryRow, ∀ c2 : String,
      summaryCount (ops.foldl upsert_chat_summary []) c2 ≤ 1) := by
  refine ⟨upsert_preserves_unique tbl r h c, fun hex => ?_, fun ops c2 => ?_⟩
  · unfold upsert_chat_summary
    rw [if_pos hex, List.length_map]
  · suffices hall : ∀ (start : List ChatSummaryRow),
        summariesUnique start →
        summariesUnique (ops.foldl upsert_chat_summary start) by
      exact hall [] (fun _ => by simp [summaryCount]) c2
    induction ops with
    | nil => exact fun start hs => hs
    | cons op rest ih =>
      intro start hs
      exact ih (upsert_chat_summary start op)
        (upsert_preserves_unique start op hs)

/-- Concrete summary row for chat `chatA`. -/
def wSumA : ChatSummaryRow :=
  { chat_id := "chatA", summary := "first", embedding := [], updated_at := 1 }

/-- A newer summary for the same chat `chatA`. -/
def wSumA2 : ChatSummaryRow :=
  { chat_id := "chatA", summary := "second", embedding := [], updated_at := 2 }

/-- Witness for C7: upserting a second summary for the same chat keeps a
single row and does not grow the table. -/
theorem single_summary_row_witness :
    summaryCount (upsert_chat_summary [wSumA] wSumA2) "chatA" ≤ 1 ∧
    (upsert_chat_summary [wSumA] wSumA2).length = [wSumA].length ∧
    summaryCount ([wSumA, wSumA2].foldl upsert_chat_summary []) "chatA" ≤ 1 :=
  ⟨(single_summary_row [wSumA] wSumA2 "chatA" (by decide)).1,
   (single_summary_row [wSumA] wSumA2 "chatA" (by decide)).2.1 (by decide),
   (single_summary_row [wSumA] wSumA2 "chatA" (by decide)).2.2
     [wSumA, wSumA2] "chatA"⟩

/-- Claim C8: dimensionality invariant.  For each of the four embedding
tables, inserting a row with an embedding of the wrong dimensionality is
rejected, and a successful insertion into a table whose rows all have
dimensionality 1536 yields a table whose rows all have dimensionality
1536. -/
theorem embedding_dimensionality (ct : List DocChunkRow) (cr : DocChunkRow)
    (lt : List LiveDocRow) (lr : LiveDocRow) (mt : List ChatMessageRow)
    (mr : ChatMessageRow) (st : List ChatSummaryRow)
    (sr : ChatSummaryRow) :
    (cr.embedding.length ≠ embeddingDim →
      insert_doc_chunk ct cr = .error ()) ∧
    (∀ out, insert_doc_chunk ct cr = .ok out →
      (∀ x ∈ ct, x.embedding.length = embeddingDim) →
      ∀ x ∈ out, x.embedding.length = embeddingDim) ∧
    (lr.embedding.length ≠ embeddingDim →
      insert_live_doc lt lr = .error ()) ∧
    (∀ out, insert_live_doc lt lr = .ok out →
      (∀ x ∈ lt, x.embedding.length = embeddingDim) →
      ∀ x ∈ out, x.embedding.length = embeddingDim) ∧
    (mr.embedding.length ≠ embeddingDim →
      insert_chat_message mt mr = .error ()) ∧
    (∀ out, insert_chat_message mt mr = .ok out →
      (∀ x ∈ mt, x.embedding.length = embeddingDim) →
      ∀ x ∈ out, x.embedding.length = embeddingDim) ∧
    (sr.embedding.length ≠ embeddingDim →
      insert_chat_summary st sr = .error ()) ∧
    (∀ out, insert_chat_summary st sr = .ok out →
      (∀ x ∈ st, x.embedding.length = embeddingDim) →
      ∀ x ∈ out, x.embedding.length = embeddingDim) := by
  refine ⟨fun h => ?_, fun out hok hall x hx => ?_,
    fun h => ?_, fun out hok hall x hx => ?_,
    fun h => ?_, fun out hok hall x hx => ?_,
    fun h => ?_, fun out hok hall x hx => ?_⟩ <;>
    first
    | (unfold insert_doc_chunk
       rw [if_neg h])
    | (unfold insert_live_doc
       rw [if_neg h])
    | (unfold insert_chat_message
       rw [if_neg h])
    | (unfold insert_chat_summary
       rw [if_neg h])
    | (unfold insert_doc_chunk at hok
       revert hok
       split
       · rename_i hlen
         intro hok
         cases hok
         rcases List.mem_append.mp hx with h' | h'
         · exact hall x h'
         · rw [List.mem_singleton.mp h']
           exact hlen
       · intro hok
         cases hok)
    | (unfold insert_live_doc at hok
       revert hok
       split
       · rename_i hlen
         intro hok
         cases hok
         rcases List.mem_append.mp hx with h' | h'
         · exact hall x h'
         · rw [List.mem_singleton.mp h']
           exact hlen
       · intro hok
         cases hok)
    | (unfold insert_chat_message at hok
       revert hok
       split
       · rename_i hlen
         intro hok
         cases hok
         rcases List.mem_append.mp hx with h' | h'
         · exact hall x h'
         · rw [List.mem_singleton.mp h']
           exact hlen
       · intro hok
         cases hok)
    | (unfold insert_chat_summary at hok
       revert hok
       split
       · rename_i hlen
         intro hok
         cases hok
         rcases List.mem_append.mp hx with h' | h'
         · exact hall x h'
         · rw [List.mem_singleton.mp h']
           exact hlen
       · intro hok
         cases hok)

/-- A chunk row with an embedding of the wrong dimensionality (length 2). -/
def badChunk : DocChunkRow :=
  { id := "bad", document_id := "d1", chunk_idx := 0, text := "bad"
    embedding := [0, 0], metadata := "", created_at := 1 }

/-- A well-formed chunk row with a 1536-dimensional embedding. -/
def goodChunk : DocChunkRow :=
  { id := "good", document_id := "d1", chunk_idx := 0, text := "good"
    embedding := List.replicate 1536 0, metadata := "", created_at := 1 }

/-- A live-doc row with a wrong-dimensional embedding. -/
def badLive : LiveDocRow :=
  { id := "bad", workspace_id := "wsA", filename := "f", chunk_idx := 0
    text := "bad", embedding := [0], created_at := 1 }

/-- A chat-message row with a wrong-dimensional embedding. -/
def badMsg : ChatMessageRow :=
  { id := 1, chat_id := "chatA", role := "user", content := "bad"
    embedding := [0, 0, 0], created_at := 1 }

/-- A chat-summary row with a wrong-dimensional embedding. -/
def badSum : ChatSummaryRow :=
  { chat_id := "chatA", summary := "bad", embedding := [], updated_at := 1 }

/-- Witness for C8: each of the four inserts rejects a concrete
wrong-dimensional row, and a successful insert of a well-formed chunk
keeps every stored embedding at dimensionality 1536. -/
theorem embedding_dimensionality_witness :
    insert_doc_chunk [] badChunk = .error () ∧
    insert_live_doc [] badLive = .error () ∧
    insert_chat_message [] badMsg = .error () ∧
    insert_chat_summary [] badSum = .error () ∧
    goodChunk.embedding.length = embeddingDim := by
  have h := embedding_dimensionality [] badChunk [] badLive [] badMsg []
    badSum
  have hgood := embedding_dimensionality [] goodChunk [] badLive [] badMsg
    [] badSum
  have hl : goodChunk.embedding.length = embeddingDim := by
    show (List.replicate 1536 (0 : ℚ)).length = embeddingDim
    rw [List.length_replicate]
    rfl
  have hins : insert_doc_chunk [] goodChunk = .ok [goodChunk] := by
    unfold insert_doc_chunk
    rw [if_pos hl]
    rfl
  refine ⟨h.1 (by decide), h.2.2.1 (by decide), h.2.2.2.2.1 (by decide),
    h.2.2.2.2.2.2.1 (by decide),
    hgood.2.1 [goodChunk] hins (by simp) goodChunk (by simp)⟩

/-- Claim C9: default-workspace substitution.  For every request that
omits `workspace_id`, the RAG-context body and the chat-query body built
by `sendChatMessage`, and the backend document record created by
`usePDFHandler`'s upload with no `workspaceId` option, all carry the
fixed workspace UUID `550e8400-e29b-41d4-a716-446655440000`. -/
theorem default_workspace_substitution (msg : String)
    (cid : Option String) (cf : Option (List String)) (ur : Option Bool)
    (rc : String) (now : Nat) (uid : Option String) (ts : Nat)
    (name fileExt : String) (size : Nat) :
    (ragRequestBody
      { message := msg, workspace_id := none, chat_id := cid
        context_files := cf, use_rag := ur }).workspace_id =
      defaultWorkspaceId ∧
    (chatRequestBody
      { message := msg, workspace_id := none, chat_id := cid
        context_files := cf, use_rag := ur } rc now).workspace_id =
      defaultWorkspaceId ∧
    (uploadDocumentRecord { workspaceId := none, userId := uid } ts name
      fileExt size).workspace_id = defaultWorkspaceId ∧
    defaultWorkspaceId = "550e8400-e29b-41d4-a716-446655440000" :=
  ⟨rfl, rfl, rfl, rfl⟩

/-- Claim C10: `sendChatMessage` is total at its interface.  For every
request and every outcome of the two backend calls it resolves: either
with success, or with `success := false` and a fallback response that
embeds the user's original message verbatim.  A chat call that parses
with HTTP ok always yields success, whatever the RAG outcome; and a
failed RAG sub-call alone leaves the context empty, so the chat call is
still issued with the user's original message. -/
theorem sendChatMessage_error_handling (req : ChatRequest)
    (rag : Except Unit RagResp) (chat : Except Unit ChatResp) (now : Nat)
    (a r m : String) (e : Unit) :
    ((sendChatMessage req rag chat now).result.success = true ∨
      ((sendChatMessage req rag chat now).result.success = false ∧
        (sendChatMessage req rag chat now).result.response =
          "I apologize, but I'm having trouble connecting to the backend right now. Your message was: \"" ++
            req.message ++
            "\". Please ensure the backend server is running.")) ∧
    (sendChatMessage req rag
      (.ok { ok := true, answer := a, response := r, message := m })
      now).result.success = true ∧
    ragContextOf req (.error e) = "" ∧
    (sendChatMessage req (.error e) chat now).body.message =
      req.message := by
  refine ⟨?_, rfl, rfl, ?_⟩
  · unfold sendChatMessage
    match chat with
    | .ok resp =>
      by_cases hok : resp.ok
      · left
        simp [hok]
      · right
        simp only [Bool.not_eq_true] at hok
        simp [hok, fallbackResponse]
    | .error _ =>
      right
      exact ⟨rfl, rfl⟩
  · show finalMessage req (ragContextOf req (.error e)) = req.message
    rfl
